import Mathlib

/-!
# mjtsc: a remote-desktop launcher (`src/main.go`)

A shallow embedding of the launcher's workflow: configuration values as a small
dynamic type, the three interactive prompts and the OS as an environment record,
and the process as a state-passing program that records every observable effect
(log lines, prompts, OS commands, sleeps) in a trace.

Go strings are embedded as `String`; the builtin `len` is the UTF-8 byte length.
-/

namespace Mjtsc

/-! ## Go primitives used by the program -/

/-- Go builtin `len` on a string: the number of bytes of its UTF-8 encoding. -/
def len (s : String) : Nat := s.utf8ByteSize

/-- Go `unicode.ToLower` on one rune. The ASCII range is handled inline exactly as in
the Go library; the mapping of runes above ASCII comes from the Unicode case tables,
which are taken as the parameter `tbl`. -/
def unicodeToLower (tbl : Char → Char) (r : Char) : Char :=
  if r.toNat ≤ 127 then
    if 65 ≤ r.toNat ∧ r.toNat ≤ 90 then Char.ofNat (r.toNat + 32) else r
  else tbl r

/-- Go `strings.ToLower`: every rune mapped through `unicode.ToLower`. -/
def ToLower (tbl : Char → Char) (s : String) : String :=
  ⟨s.data.map (unicodeToLower tbl)⟩

/-- Go `strings.Replace(s, " ", "", -1)`: every occurrence of the one-character
string `" "` (U+0020) is deleted; nothing else is touched. -/
def ReplaceSpaces (s : String) : String :=
  ⟨s.data.filter (fun c => c != ' ')⟩

/-- Go `strings.Contains(s, substr)`: `substr` occurs in `s` as a contiguous block.
(For well-formed UTF-8 a byte-level occurrence is a rune-level occurrence.) -/
def Contains (s substr : String) : Bool :=
  s.data.tails.any (fun t => substr.data.isPrefixOf t)

/-- Nanoseconds in `time.Second`. -/
def Second : Nat := 1000000000

/-! ## Data model -/

/-- A value of Go type `interface{}` as handed out by `viper.Get`. Map keys that are
not strings can never equal the string keys the program looks up and are left out. -/
inductive Value where
  | nil : Value
  | str (s : String) : Value
  | other : Value
  | slice (xs : List Value) : Value
  | map (kvs : List (String × Value)) : Value

/-- The `Host` struct (its field `Type` is spelled `Type_`, `Type` being reserved). -/
structure Host where
  Name : String
  Type_ : String
  Address : String
deriving DecidableEq, Repr

/-- The `Hosts` slice type. -/
abbrev Hosts := List Host

/-- One entry of the `user` configuration list (the program keeps these as untyped
maps; this record is the shape the configuration is documented to have). -/
structure UserEntry where
  Domain : String
  Username : String
  Password : String
deriving DecidableEq, Repr

/-- The untyped map a well-formed host entry is read as. -/
def Host.toValue (h : Host) : Value :=
  .map [("Name", .str h.Name), ("Type", .str h.Type_), ("Address", .str h.Address)]

/-- The untyped map a well-formed user entry is read as. -/
def UserEntry.toValue (u : UserEntry) : Value :=
  .map [("Domain", .str u.Domain), ("Username", .str u.Username), ("Password", .str u.Password)]

/-- The expression `v.(map[interface{}]interface{})[key].(string)`. Either type
assertion failing is a run-time panic, rendered as `none`. -/
def field (v : Value) (key : String) : Option String :=
  match v with
  | .map kvs =>
    match kvs.lookup key with
    | some (.str s) => some s
    | _ => none
  | _ => none

/-! ## The pure loops of `getHost` and `getUser` -/

/-- The `for _, v := range hostListSlice` loop of `getHost` (lines 144-150), with the
slice built so far as accumulator. `none` is a panic in a type assertion. -/
def hostLoop : List Value → Hosts → Option Hosts
  | [], hosts => some hosts
  | v :: vs, hosts =>
    match field v "Name" with
    | none => none
    | some name =>
      match field v "Type" with
      | none => none
      | some ty =>
        match field v "Address" with
        | none => none
        | some address => hostLoop vs (hosts ++ [Host.mk name ty address])

/-- The `searcher` closure of `getHost` (lines 164-169). `hosts[index]` out of range
is a panic, rendered as `none`. -/
def searcher (tbl : Char → Char) (hosts : Hosts) (input : String) (index : Nat) : Option Bool :=
  match hosts[index]? with
  | none => none
  | some host =>
    let name := ReplaceSpaces (ToLower tbl host.Name)
    let input := ReplaceSpaces (ToLower tbl input)
    some (Contains name input)

/-- The login computed for one entry in the build loop of `getUser` (lines 203-207);
`username` is the value of `os.Getenv("USERNAME")`. -/
def buildLogin (username : String) (v : Value) : Option String :=
  match field v "Username" with
  | none => none
  | some u =>
    if u = "USERNAME" then
      match field v "Domain" with
      | none => none
      | some d => some (d ++ "\\" ++ username)
    else
      match field v "Domain" with
      | none => none
      | some d =>
        match field v "Username" with
        | none => none
        | some u2 => some (d ++ "\\" ++ u2)

/-- The build loop of `getUser` (lines 202-209), with `users` as accumulator. -/
def buildLoop (username : String) : List Value → List String → Option (List String)
  | [], users => some users
  | v :: vs, users =>
    match buildLogin username v with
    | none => none
    | some login => buildLoop username vs (users ++ [login])

/-- The login recomputed for one entry in the resolution loop of `getUser`
(lines 224-228). -/
def resolveLogin (username : String) (v : Value) : Option String :=
  match field v "Username" with
  | none => none
  | some u =>
    if u = "USERNAME" then
      match field v "Domain" with
      | none => none
      | some d => some (d ++ "\\" ++ username)
    else
      match field v "Domain" with
      | none => none
      | some d =>
        match field v "Username" with
        | none => none
        | some u2 => some (d ++ "\\" ++ u2)

/-- The resolution loop of `getUser` (lines 223-235), with the variable `password`
as accumulator. The loop has no `break`: every entry is visited. -/
def resolveLoop (username user : String) : List Value → String → Option String
  | [], password => some password
  | v :: vs, password =>
    match resolveLogin username v with
    | none => none
    | some login =>
      if login = user then
        match field v "Password" with
        | none => none
        | some p => resolveLoop username user vs (if p = "NA" then "" else p)
      else resolveLoop username user vs password

/-- The `validate` closure of `getPassword` (lines 246-251): `some msg` is the
returned error, `none` is `nil`. -/
def validate (input : String) : Option String :=
  if len input < 6 then some "Password must have more than 6 characters" else none

/-! ## The process: logger state, effects, environment -/

/-- The destination `log.Out` of the logger. -/
inductive Writer where
  | stdout : Writer
  | stderr : Writer
  | file (path : String) : Writer
deriving DecidableEq, Repr

/-- The `logrus` levels the program uses. -/
inductive Level where
  | panicLevel | fatalLevel | errorLevel | warnLevel | infoLevel | debugLevel
deriving DecidableEq, Repr

/-- The numeric value `logrus` gives a level; an entry is written when the logger's
level is at least the entry's level. -/
def Level.toNat : Level → Nat
  | .panicLevel => 0
  | .fatalLevel => 1
  | .errorLevel => 2
  | .warnLevel => 3
  | .infoLevel => 4
  | .debugLevel => 5

/-- An observable effect of the process. -/
inductive Event where
  | log (out : Writer) (level : Level) (msg : String) (fields : List (String × String)) : Event
  | select (label : String) (items : Hosts) : Event
  | selectWithAdd (label : String) (items : List String) (addLabel : String) : Event
  | prompt (label : String) : Event
  | exec (command : String) : Event
  | sleep (nanos : Nat) : Event
deriving DecidableEq, Repr

/-- The mutable state: the global logger's `Out` and `Level`, the number of OS commands
run so far, and the effects so far in order. -/
structure St where
  out : Writer
  level : Level
  cmds : Nat
  trace : List Event
deriving DecidableEq, Repr

/-- Everything the process reads from outside itself. -/
structure Env where
  /-- The `--out`, `--logfile`, `--level` flags as given on the command line. -/
  outFlag : Option String
  logfileFlag : Option String
  levelFlag : Option String
  /-- The error of `viper.ReadInConfig`, if any. -/
  readInConfig : Option String
  /-- The values `viper.Get("host")` and `viper.Get("user")`. -/
  hostConfig : Value
  userConfig : Value
  /-- The value `os.Getenv("USERNAME")`. -/
  USERNAME : String
  /-- The Unicode lower-case table for runes above ASCII. -/
  caseTable : Char → Char
  /-- The error of `os.OpenFile` on a path, if any. -/
  openFile : String → Option String
  /-- What `promptui.Select.Run` returns for the given items and searcher. -/
  selectRun : Hosts → (String → Nat → Option Bool) → Except String Nat
  /-- What `promptui.SelectWithAdd.Run` returns for the given items. -/
  selectWithAddRun : List String → Except String String
  /-- What `promptui.Prompt.Run` returns for the given validation hook. -/
  promptRun : (String → Option String) → Except String String
  /-- The error of running the `k`-th OS command (counting from 0), if any. -/
  commandRun : Nat → String → Option String

/-- How a process stops before `main` returns. -/
inductive Halt where
  | exit (code : Nat) : Halt
  | goPanic : Halt
deriving DecidableEq, Repr

/-- The result of running a piece of the program from a state. -/
inductive Res (α : Type) where
  | ok (a : α) (s : St) : Res α
  | halt (h : Halt) (s : St) : Res α

/-- A piece of the program. -/
def Prog (α : Type) : Type := St → Res α

/-- Sequencing: a halted process runs nothing further. -/
def Prog.bind {α β : Type} (m : Prog α) (f : α → Prog β) : Prog β := fun s =>
  match m s with
  | .ok a s1 => f a s1
  | .halt h s1 => .halt h s1

/-- A step without effect. -/
def Prog.pure {α : Type} (a : α) : Prog α := fun s => .ok a s

instance : Monad Prog where
  pure := Prog.pure
  bind := Prog.bind

/-- The state a result ends in. -/
def Res.state {α : Type} : Res α → St
  | .ok _ s => s
  | .halt _ s => s

/-- The effects of a run, in order. -/
def Res.trace {α : Type} (r : Res α) : List Event := r.state.trace

/-- The value a piece of program returned, if it returned. -/
def Res.value {α : Type} : Res α → Option α
  | .ok a _ => some a
  | .halt _ _ => none

/-- The exit status of the process when `r` is the result of `main`: 0 when `main`
returns, the argument of `os.Exit`, and 2 for an unrecovered panic. -/
def Res.exitStatus {α : Type} : Res α → Nat
  | .ok _ _ => 0
  | .halt (.exit code) _ => code
  | .halt .goPanic _ => 2

/-- The state with one more effect recorded. -/
def St.push (s : St) (e : Event) : St := { s with trace := s.trace ++ [e] }

/-- The state after one `logrus` entry: the entry is written to the current `log.Out`
when the logger's level admits the entry's level. -/
def St.logged (s : St) (level : Level) (msg : String) (fields : List (String × String)) : St :=
  if level.toNat ≤ s.level.toNat then s.push (Event.log s.out level msg fields) else s

/-- Record an effect. -/
def emit (e : Event) : Prog Unit := fun s => .ok () (s.push e)

/-- The call `os.Exit(code)`. -/
def osExit {α : Type} (code : Nat) : Prog α := fun s => .halt (.exit code) s

/-- A pure computation that may panic. -/
def orPanic {α : Type} : Option α → Prog α
  | some a => Prog.pure a
  | none => fun s => .halt .goPanic s

/-- One `logrus` entry (`log.Info`, `log.Errorf`, `log.WithFields(...).Debug`, ...). -/
def logEntry (level : Level) (msg : String) (fields : List (String × String)) : Prog Unit :=
  fun s => .ok () (s.logged level msg fields)

/-- The call `log.Fatalf`: an entry at fatal level, then `os.Exit(1)`. -/
def logFatalf {α : Type} (msg : String) : Prog α := do
  logEntry .fatalLevel msg []
  osExit 1

/-- Assignment to `log.Out`. -/
def setOut (w : Writer) : Prog Unit := fun s => .ok () { s with out := w }

/-- Assignment to `log.Level`. -/
def setLevel (l : Level) : Prog Unit := fun s => .ok () { s with level := l }

/-- The call `time.Sleep(d)`. -/
def timeSleep (nanos : Nat) : Prog Unit := emit (.sleep nanos)

/-- The constant `default_logfile`. -/
def default_logfile : String := "./output.log"

/-- The value of `app.Name` set by `initApp`. -/
def appName : String := "mstsc"

/-- The value `c.String(name)` of a flag: the command-line value, else the default
declared in `app.Flags` (lines 59-75). -/
def flagString (given : Option String) (dflt : String) : String :=
  match given with
  | some v => v
  | none => dflt

/-- The function `initLogging` (the formatter does not affect where or whether an
entry is written). -/
def initLogging : Prog Unit := setLevel .infoLevel

/-- The function `initViper`. -/
def initViper (env : Env) : Prog Unit :=
  match env.readInConfig with
  | some err => logFatalf ("Error reading config file, " ++ err)
  | none => Prog.pure ()

/-- The function `initApp`: it sets `app.Name` (the constant `appName`), `app.Usage` and
`app.Version`, none of which is state of this model. -/
def initApp : Prog Unit := Prog.pure ()

/-- The function `init`. -/
def init (env : Env) : Prog Unit := do
  initLogging
  initViper env
  initApp

/-- The function `changeLogLevel`. -/
def changeLogLevel (level : String) : Prog Unit :=
  if level = "debug" then setLevel .debugLevel
  else if level = "warn" then setLevel .warnLevel
  else if level = "error" then setLevel .errorLevel
  else if level = "fatal" then setLevel .fatalLevel
  else if level = "panic" then setLevel .panicLevel
  else Prog.pure ()

/-- The function `changeLogOut`. -/
def changeLogOut (out : String) : Prog Unit :=
  if out = "stdout" then setOut .stdout
  else if out = "stderr" then setOut .stderr
  else Prog.pure ()

/-- The function `getHost`. -/
def getHost (env : Env) (hostList : Value) : Prog String := do
  let hostListSlice ← (match hostList with
    | .slice xs => Prog.pure xs
    | _ => do
      logEntry .errorLevel "Argument is not a slice" []
      osExit 1)
  let hosts ← orPanic (hostLoop hostListSlice [])
  emit (.select "Host" hosts)
  match env.selectRun hosts (searcher env.caseTable hosts) with
  | .error err => do
    logEntry .errorLevel ("Prompt failed, " ++ err) []
    osExit 1
  | .ok i => do
    let host ← orPanic hosts[i]?
    let address := host.Address
    logEntry .debugLevel "Function getHost" [("address", address)]
    return address

/-- The function `getUser`. -/
def getUser (env : Env) (userList : Value) : Prog (String × String) := do
  let userListSlice ← (match userList with
    | .slice xs => Prog.pure xs
    | _ => do
      logEntry .errorLevel "Argument is not a slice" []
      osExit 1)
  let users ← orPanic (buildLoop env.USERNAME userListSlice [])
  emit (.selectWithAdd "User" users "Other")
  match env.selectWithAddRun users with
  | .error err => do
    logEntry .errorLevel ("Prompt failed, " ++ err) []
    osExit 1
  | .ok user => do
    let password ← orPanic (resolveLoop env.USERNAME user userListSlice "")
    logEntry .debugLevel "Function getUser" [("user", user), ("password", password)]
    return (user, password)

/-- The function `getPassword`. -/
def getPassword (env : Env) : Prog String := do
  emit (.prompt "Password")
  match env.promptRun validate with
  | .error err => do
    logEntry .errorLevel "Prompt failed" [("err", err)]
    osExit 0
  | .ok password => return password

/-- The call `exec.Command("cmd", "/c", command).Run()`: the value is the error. -/
def osCommand (env : Env) (command : String) : Prog (Option String) := fun s =>
  .ok (env.commandRun s.cmds command) { (s.push (Event.exec command)) with cmds := s.cmds + 1 }

/-- The function `execCommand`: the command is run through `cmd /c`; an error is
logged as a warning and goes no further. -/
def execCommand (env : Env) (command : String) : Prog Unit := do
  logEntry .debugLevel "Func execCommand" [("command", command)]
  let err ← osCommand env command
  match err with
  | some e => logEntry .warnLevel "Command Exec Error" [("err", e)]
  | none => Prog.pure ()

/-- The closure assigned to `app.Action` (lines 77-117); the value is the returned
`error`, `none` for `nil`. -/
def action (env : Env) : Prog (Option String) := do
  changeLogLevel (flagString env.levelFlag "info")
  changeLogOut (flagString env.outFlag "file")
  let logfile := flagString env.logfileFlag default_logfile
  match env.openFile logfile with
  | none => setOut (.file logfile)
  | some err => logFatalf ("Failed to log to file, using default stderr, " ++ err)
  logEntry .infoLevel ("Start " ++ appName ++ " app") []
  let address ← getHost env env.hostConfig
  let (user, password) ← getUser env env.userConfig
  let password ← (if len password = 0 then do
      let password ← getPassword env
      logEntry .debugLevel "Function getPassword" [("password", password)]
      Prog.pure password
    else Prog.pure password)
  execCommand env
    ("cmdkey /generic:TERMSRV/" ++ address ++ " /user:" ++ user ++ " /pass:" ++ password)
  timeSleep (2 * Second)
  execCommand env ("start mstsc /f /v:" ++ address)
  timeSleep (2 * Second)
  execCommand env ("cmdkey /delete:TERMSRV/" ++ address)
  logEntry .infoLevel ("End " ++ appName ++ " app") []
  return none

/-- The function `main`: `app.Run` runs the action with the parsed flags, and a returned
error is fatal. -/
def main (env : Env) : Prog Unit := do
  let err ← action env
  match err with
  | some e => logFatalf ("CLI fatal error, " ++ e)
  | none => Prog.pure ()

/-- The state of a fresh process: `logrus.New()` logs to standard error at info level. -/
def St.initial : St := { out := .stderr, level := .infoLevel, cmds := 0, trace := [] }

/-- One whole run of the process in an environment: `init`, then `main`. -/
def run (env : Env) : Res Unit :=
  (do
    init env
    main env) St.initial

/-- Whether an effect is an OS command or a sleep. -/
def Event.isCommand : Event → Bool
  | .exec _ => true
  | .sleep _ => true
  | _ => false

/-- Whether an effect is one of the three interactive prompts. -/
def Event.isPrompt : Event → Bool
  | .select _ _ => true
  | .selectWithAdd _ _ _ => true
  | .prompt _ => true
  | _ => false

/-- The OS commands and sleeps of a trace, in order. -/
def commandsOf (t : List Event) : List Event := t.filter Event.isCommand

/-- The prompts of a trace, in order. -/
def promptsOf (t : List Event) : List Event := t.filter Event.isPrompt

/-- The log entries of a trace, in order. -/
def logsOf (t : List Event) : List Event :=
  t.filter (fun e => !e.isCommand && !e.isPrompt)

/-- The level `changeLogLevel` leaves the logger at. -/
def levelAfter (l : String) (s : St) : Level := (changeLogLevel l s).state.level

/-- The destination `changeLogOut` leaves the logger with. -/
def outAfter (o : String) (s : St) : Writer := (changeLogOut o s).state.out

/-- The state `execCommand` ends in. -/
def execState (env : Env) (c : String) (s : St) : St := (execCommand env c s).state

/-! ## The specification's reading, for comparison with the code -/

/-- The Login of the specification: `Domain \ Username`, with the operator's account
name in place of the sentinel username. -/
def loginOf (username : String) (e : UserEntry) : String :=
  e.Domain ++ "\\" ++ (if e.Username = "USERNAME" then username else e.Username)

/-- The password an entry supplies: the sentinel `NA` stands for none. -/
def storedPassword (e : UserEntry) : String := if e.Password = "NA" then "" else e.Password

/-- The resolution rule in the specification's words: the first entry whose Login is the
chosen string supplies the password; no such entry, no password. -/
def firstMatchPassword (username : String) (us : List UserEntry) (chosen : String) : String :=
  match us.find? (fun e => loginOf username e = chosen) with
  | some e => storedPassword e
  | none => ""

/-- A string with every whitespace character removed. -/
def stripWhitespace (s : String) : String :=
  ⟨s.data.filter (fun c => !c.isWhitespace)⟩

/-- The search rule in the specification's words: the input, lower-cased and with all
whitespace removed, occurs in the name, lower-cased and with all whitespace removed. -/
def specSearcher (tbl : Char → Char) (hosts : Hosts) (input : String) (index : Nat) :
    Option Bool :=
  match hosts[index]? with
  | none => none
  | some host =>
    some (Contains (stripWhitespace (ToLower tbl host.Name)) (stripWhitespace (ToLower tbl input)))

/-- Two strings that differ at most in the case of ASCII letters. -/
def SameUpToAsciiCase (x y : String) : Prop :=
  List.Forall₂ (fun a b => a.toLower = b.toLower) x.data y.data

/-- The destination a log entry was written to; `none` for any other effect. -/
def Event.dest : Event → Option Writer
  | .log out _ _ _ => some out
  | _ => none

/-- The logger points at `w` and every entry logged so far was written to `w`. -/
def LogsTo (w : Writer) (s : St) : Prop :=
  s.out = w ∧ ∀ e ∈ s.trace, e.dest = none ∨ e.dest = some w

/-! ## Concrete scenarios -/

/-- The host list of the end-to-end scenarios. -/
def hostsA : Hosts := [Host.mk "srv1" "rdp" "10.0.0.5"]

/-- Scenario A: one host, one user with a stored password, both picked; default flags;
every OS command succeeds. -/
def envA : Env where
  outFlag := none
  logfileFlag := none
  levelFlag := none
  readInConfig := none
  hostConfig := .slice (hostsA.map Host.toValue)
  userConfig := .slice [(UserEntry.mk "CORP" "alice" "s3cret!").toValue]
  USERNAME := "bob"
  caseTable := fun c => c
  openFile := fun _ => none
  selectRun := fun _ _ => .ok 0
  selectWithAddRun := fun _ => .ok "CORP\\alice"
  promptRun := fun _ => .error "^C"
  commandRun := fun _ _ => none

/-- Scenario B: the user entry has the sentinel username and the sentinel password, the
operator is `bob` and types `abcdef` at the password prompt. -/
def envB : Env :=
  { envA with
    userConfig := .slice [(UserEntry.mk "CORP" "USERNAME" "NA").toValue]
    selectWithAddRun := fun _ => .ok "CORP\\bob"
    promptRun := fun _ => .ok "abcdef" }

/-- Scenario A with every OS command failing. -/
def envFail : Env := { envA with commandRun := fun _ _ => some "exit status 1" }

/-- Scenario C: the host prompt is cancelled. -/
def envHostCancel : Env := { envA with selectRun := fun _ _ => .error "^C" }

/-- Scenario A with the user prompt cancelled. -/
def envUserCancel : Env := { envA with selectWithAddRun := fun _ => .error "^C" }

/-- Scenario D: host and user chosen, no stored password, password prompt cancelled. -/
def envPasswordCancel : Env := { envB with promptRun := fun _ => .error "^C" }

/-- Two entries with the same Login and different passwords. -/
def usersDup : List UserEntry :=
  [UserEntry.mk "CORP" "alice" "first", UserEntry.mk "CORP" "alice" "second"]

/-- An entry without stored password followed by one with the same Login and a password. -/
def usersNA : List UserEntry :=
  [UserEntry.mk "CORP" "alice" "NA", UserEntry.mk "CORP" "alice" "pw123456"]

/-- Scenario A started with `--out stdout`. -/
def envStdout : Env := { envA with outFlag := some "stdout" }

/-- Scenario A started with `--out stderr`. -/
def envStderr : Env := { envA with outFlag := some "stderr" }

/-! ## Bookkeeping lemmas for the state -/

@[simp]
theorem bind_apply {α β : Type} (m : Prog α) (f : α → Prog β) (s : St) :
    (m >>= f) s = Prog.bind m f s := rfl

@[simp]
theorem pure_apply {α : Type} (a : α) (s : St) :
    (Pure.pure a : Prog α) s = Res.ok a s := rfl

@[simp]
theorem progPure_apply {α : Type} (a : α) (s : St) : Prog.pure a s = Res.ok a s := rfl

@[simp]
theorem push_out (s : St) (e : Event) : (s.push e).out = s.out := rfl
@[simp]
theorem push_level (s : St) (e : Event) : (s.push e).level = s.level := rfl
@[simp]
theorem push_cmds (s : St) (e : Event) : (s.push e).cmds = s.cmds := rfl
@[simp]
theorem push_trace (s : St) (e : Event) : (s.push e).trace = s.trace ++ [e] := rfl

@[simp]
theorem logged_out (s : St) (l : Level) (m : String) (f : List (String × String)) :
    (s.logged l m f).out = s.out := by
  unfold St.logged; split <;> rfl

@[simp]
theorem logged_level (s : St) (l : Level) (m : String) (f : List (String × String)) :
    (s.logged l m f).level = s.level := by
  unfold St.logged; split <;> rfl

@[simp]
theorem logged_cmds (s : St) (l : Level) (m : String) (f : List (String × String)) :
    (s.logged l m f).cmds = s.cmds := by
  unfold St.logged; split <;> rfl

@[simp]
theorem commandsOf_logged (s : St) (l : Level) (m : String) (f : List (String × String)) :
    commandsOf (s.logged l m f).trace = commandsOf s.trace := by
  unfold St.logged; split <;> simp [commandsOf, Event.isCommand]

@[simp]
theorem promptsOf_logged (s : St) (l : Level) (m : String) (f : List (String × String)) :
    promptsOf (s.logged l m f).trace = promptsOf s.trace := by
  unfold St.logged; split <;> simp [promptsOf, Event.isPrompt]

@[simp]
theorem commandsOf_nil : commandsOf [] = [] := rfl

@[simp]
theorem promptsOf_nil : promptsOf [] = [] := rfl

@[simp]
theorem commandsOf_singleton (e : Event) :
    commandsOf [e] = if e.isCommand then [e] else [] := by
  cases h : e.isCommand <;> simp [commandsOf, h]

@[simp]
theorem promptsOf_singleton (e : Event) :
    promptsOf [e] = if e.isPrompt then [e] else [] := by
  cases h : e.isPrompt <;> simp [promptsOf, h]

@[simp]
theorem commandsOf_append (t u : List Event) :
    commandsOf (t ++ u) = commandsOf t ++ commandsOf u := by
  simp [commandsOf]

@[simp]
theorem promptsOf_append (t u : List Event) :
    promptsOf (t ++ u) = promptsOf t ++ promptsOf u := by
  simp [promptsOf]

@[simp]
theorem changeLogLevel_apply (l : String) (s : St) :
    changeLogLevel l s = Res.ok () { s with level := levelAfter l s } := by
  unfold levelAfter changeLogLevel
  split_ifs <;> simp [setLevel, Res.state]

@[simp]
theorem changeLogOut_apply (o : String) (s : St) :
    changeLogOut o s = Res.ok () { s with out := outAfter o s } := by
  unfold outAfter changeLogOut
  split_ifs <;> simp [setOut, Res.state]

@[simp]
theorem setOut_apply (w : Writer) (s : St) : setOut w s = Res.ok () { s with out := w } := rfl

@[simp]
theorem setLevel_apply (l : Level) (s : St) :
    setLevel l s = Res.ok () { s with level := l } := rfl

@[simp]
theorem logEntry_apply (l : Level) (m : String) (f : List (String × String)) (s : St) :
    logEntry l m f s = Res.ok () (s.logged l m f) := rfl

@[simp]
theorem emit_apply (e : Event) (s : St) : emit e s = Res.ok () (s.push e) := rfl

@[simp]
theorem timeSleep_apply (n : Nat) (s : St) :
    timeSleep n s = Res.ok () (s.push (Event.sleep n)) := rfl

@[simp]
theorem osExit_apply {α : Type} (c : Nat) (s : St) :
    (osExit c : Prog α) s = Res.halt (Halt.exit c) s := rfl

@[simp]
theorem orPanic_some {α : Type} (a : α) (s : St) : orPanic (some a) s = Res.ok a s := rfl

@[simp]
theorem orPanic_none {α : Type} (s : St) :
    orPanic (none : Option α) s = Res.halt Halt.goPanic s := rfl

@[simp]
theorem logFatalf_apply {α : Type} (m : String) (s : St) :
    (logFatalf m : Prog α) s = Res.halt (Halt.exit 1) (s.logged Level.fatalLevel m []) := rfl

theorem execCommand_apply (env : Env) (c : String) (s : St) :
    execCommand env c s = Res.ok ()
      (match env.commandRun s.cmds c with
        | some e => St.logged { ((s.logged .debugLevel "Func execCommand" [("command", c)]).push
            (Event.exec c)) with cmds := s.cmds + 1 } .warnLevel "Command Exec Error" [("err", e)]
        | none => { ((s.logged .debugLevel "Func execCommand" [("command", c)]).push
            (Event.exec c)) with cmds := s.cmds + 1 }) := by
  simp only [execCommand, osCommand, bind_apply, Prog.bind, logEntry_apply, logged_cmds]
  cases env.commandRun s.cmds c <;> simp

theorem execCommand_ok (env : Env) (c : String) (s : St) :
    execCommand env c s = Res.ok () (execState env c s) := by
  rw [execState, execCommand_apply]; rfl

@[simp]
theorem execState_cmds (env : Env) (c : String) (s : St) :
    (execState env c s).cmds = s.cmds + 1 := by
  rw [execState, execCommand_apply]
  cases env.commandRun s.cmds c <;> simp [Res.state]

@[simp]
theorem commandsOf_execState (env : Env) (c : String) (s : St) :
    commandsOf (execState env c s).trace = commandsOf s.trace ++ [Event.exec c] := by
  rw [execState, execCommand_apply]
  cases env.commandRun s.cmds c <;> simp [Res.state] <;> simp [commandsOf, Event.isCommand]

@[simp]
theorem promptsOf_execState (env : Env) (c : String) (s : St) :
    promptsOf (execState env c s).trace = promptsOf s.trace := by
  rw [execState, execCommand_apply]
  cases env.commandRun s.cmds c <;> simp [Res.state] <;> simp [promptsOf, Event.isPrompt]

theorem getHost_ok (env : Env) (xs : List Value) (hosts : Hosts) (i : Nat) (h : Host) (s : St)
    (hloop : hostLoop xs [] = some hosts)
    (hsel : env.selectRun hosts (searcher env.caseTable hosts) = .ok i)
    (hget : hosts[i]? = some h) :
    getHost env (.slice xs) s = Res.ok h.Address
      ((s.push (.select "Host" hosts)).logged .debugLevel "Function getHost"
        [("address", h.Address)]) := by
  simp [getHost, Prog.bind, hloop, hsel, hget]

theorem getUser_ok (env : Env) (ys : List Value) (users : List String) (l pw : String) (s : St)
    (hloop : buildLoop env.USERNAME ys [] = some users)
    (hsel : env.selectWithAddRun users = .ok l)
    (hres : resolveLoop env.USERNAME l ys "" = some pw) :
    getUser env (.slice ys) s = Res.ok (l, pw)
      ((s.push (.selectWithAdd "User" users "Other")).logged .debugLevel "Function getUser"
        [("user", l), ("password", pw)]) := by
  simp [getUser, Prog.bind, hloop, hsel, hres]


/-! ## The loops on well-formed configuration -/

theorem field_user_Domain (e : UserEntry) : field e.toValue "Domain" = some e.Domain := by
  simp [field, UserEntry.toValue, List.lookup]

theorem field_user_Username (e : UserEntry) : field e.toValue "Username" = some e.Username := by
  simp [field, UserEntry.toValue, List.lookup]

theorem field_user_Password (e : UserEntry) : field e.toValue "Password" = some e.Password := by
  simp [field, UserEntry.toValue, List.lookup]

theorem field_host_Name (h : Host) : field h.toValue "Name" = some h.Name := by
  simp [field, Host.toValue, List.lookup]

theorem field_host_Type (h : Host) : field h.toValue "Type" = some h.Type_ := by
  simp [field, Host.toValue, List.lookup]

theorem field_host_Address (h : Host) : field h.toValue "Address" = some h.Address := by
  simp [field, Host.toValue, List.lookup]

theorem buildLogin_toValue (n : String) (e : UserEntry) :
    buildLogin n e.toValue = some (loginOf n e) := by
  unfold buildLogin loginOf
  simp only [field_user_Username, field_user_Domain]
  split_ifs <;> rfl

theorem resolveLogin_toValue (n : String) (e : UserEntry) :
    resolveLogin n e.toValue = some (loginOf n e) := by
  unfold resolveLogin loginOf
  simp only [field_user_Username, field_user_Domain]
  split_ifs <;> rfl

theorem buildLoop_toValue (n : String) (us : List UserEntry) (acc : List String) :
    buildLoop n (us.map UserEntry.toValue) acc = some (acc ++ us.map (loginOf n)) := by
  induction us generalizing acc with
  | nil => simp [buildLoop]
  | cons e es ih => simp [buildLoop, buildLogin_toValue, ih]

theorem hostLoop_toValue (hs : Hosts) (acc : Hosts) :
    hostLoop (hs.map Host.toValue) acc = some (acc ++ hs) := by
  induction hs generalizing acc with
  | nil => simp [hostLoop]
  | cons e es ih => simp [hostLoop, field_host_Name, field_host_Type, field_host_Address, ih]

/-- The resolution loop on well-formed entries, as a fold. -/
theorem resolveLoop_toValue (n chosen : String) (us : List UserEntry) (pw : String) :
    resolveLoop n chosen (us.map UserEntry.toValue) pw =
      some (us.foldl (fun acc e => if loginOf n e = chosen then storedPassword e else acc) pw) := by
  induction us generalizing pw with
  | nil => simp [resolveLoop]
  | cons e es ih =>
    simp only [List.map_cons, resolveLoop, resolveLogin_toValue, field_user_Password,
      List.foldl_cons, storedPassword]
    split_ifs <;> exact ih _

theorem foldl_no_match (n chosen : String) (us : List UserEntry) (pw : String)
    (h : ∀ x ∈ us, loginOf n x ≠ chosen) :
    us.foldl (fun acc e => if loginOf n e = chosen then storedPassword e else acc) pw = pw := by
  induction us generalizing pw with
  | nil => rfl
  | cons e es ih =>
    have he : loginOf n e ≠ chosen := h e (List.mem_cons_self _ _)
    simp only [List.foldl_cons, he, if_false]
    exact ih pw (fun x hx => h x (List.mem_cons_of_mem _ hx))

theorem foldl_last_match (n chosen : String) (pre post : List UserEntry) (e : UserEntry)
    (pw : String) (he : loginOf n e = chosen) (h : ∀ x ∈ post, loginOf n x ≠ chosen) :
    (pre ++ e :: post).foldl
      (fun acc e => if loginOf n e = chosen then storedPassword e else acc) pw
      = storedPassword e := by
  rw [List.foldl_append, List.foldl_cons, if_pos he]
  exact foldl_no_match n chosen post _ h


/-! ## Strings -/

theorem toNat_ofNat_small (n : Nat) (h : n < 55296) : (Char.ofNat n).toNat = n := by
  have hv : n.isValidChar := Or.inl h
  simp only [Char.ofNat, hv, dif_pos, Char.ofNatAux, Char.toNat]
  show (UInt32.ofNat' n _).toNat = n
  simp [UInt32.ofNat', UInt32.toNat]

theorem unicodeToLower_ascii (tbl : Char → Char) (c : Char) (h : c.toNat ≤ 127) :
    unicodeToLower tbl c = c.toLower := by
  simp only [unicodeToLower, Char.toLower, h, if_true]

theorem len_eq_zero_iff (s : String) : len s = 0 ↔ s = "" := by
  rcases s with ⟨cs⟩
  cases cs with
  | nil => simp [len, String.utf8ByteSize, String.utf8ByteSize.go]
  | cons c cs =>
    have := c.utf8Size_pos
    have hne : (String.mk (c :: cs)) ≠ "" := by
      intro h
      have := congrArg String.data h
      simp at this
    simp only [len, String.utf8ByteSize, String.utf8ByteSize.go, hne, iff_false]
    omega

theorem go_ge_length (cs : List Char) : cs.length ≤ String.utf8ByteSize.go cs := by
  induction cs with
  | nil => simp [String.utf8ByteSize.go]
  | cons c cs ih =>
    have := c.utf8Size_pos
    simp only [String.utf8ByteSize.go, List.length_cons]; omega

theorem length_le_len (s : String) : s.length ≤ len s := by
  rcases s with ⟨cs⟩
  exact go_ge_length cs

theorem validate_none_iff (s : String) : validate s = none ↔ 6 ≤ len s := by
  unfold validate; split_ifs <;> simp <;> omega

theorem Contains_iff (s sub : String) : Contains s sub = true ↔ sub.data <:+: s.data := by
  simp only [Contains, List.any_eq_true, List.mem_tails, List.isPrefixOf_iff_prefix,
    List.infix_iff_prefix_suffix]
  constructor
  · rintro ⟨t, h1, h2⟩; exact ⟨t, h2, h1⟩
  · rintro ⟨t, h1, h2⟩; exact ⟨t, h2, h1⟩

theorem toLower_toNat_le (c : Char) (h : c.toNat ≤ 127) : c.toLower.toNat ≤ 127 := by
  unfold Char.toLower
  simp only []
  split_ifs with h1
  · rw [toNat_ofNat_small _ (by omega)]; omega
  · exact h

theorem unicodeToLower_congr (tbl : Char → Char) (a b : Char) (h : a.toLower = b.toLower) :
    unicodeToLower tbl a = unicodeToLower tbl b := by
  by_cases ha : a.toNat ≤ 127
  · by_cases hb : b.toNat ≤ 127
    · rw [unicodeToLower_ascii tbl a ha, unicodeToLower_ascii tbl b hb, h]
    · have hb2 : b.toLower = b := by
        unfold Char.toLower; simp only []; rw [if_neg]; omega
      have := toLower_toNat_le a ha
      rw [h, hb2] at this
      exact absurd this hb
  · have ha2 : a.toLower = a := by
      unfold Char.toLower; simp only []; rw [if_neg]; omega
    by_cases hb : b.toNat ≤ 127
    · have := toLower_toNat_le b hb
      rw [← h, ha2] at this
      exact absurd this ha
    · have hb2 : b.toLower = b := by
        unfold Char.toLower; simp only []; rw [if_neg]; omega
      rw [ha2, hb2] at h
      rw [h]

theorem ToLower_congr (tbl : Char → Char) (x y : String) (h : SameUpToAsciiCase x y) :
    ToLower tbl x = ToLower tbl y := by
  have key : ∀ l1 l2 : List Char, List.Forall₂ (fun a b => a.toLower = b.toLower) l1 l2 →
      l1.map (unicodeToLower tbl) = l2.map (unicodeToLower tbl) := by
    intro l1 l2 hl
    induction hl with
    | nil => rfl
    | cons hab _ ih => simp [unicodeToLower_congr tbl _ _ hab, ih]
  unfold ToLower
  rw [key _ _ h]

theorem unicodeToLower_space (tbl : Char → Char) : unicodeToLower tbl ' ' = ' ' := by
  have h1 : (' ' : Char).toNat = 32 := by decide
  simp [unicodeToLower, h1]

theorem normalize_space (tbl : Char → Char) (a b : String) :
    ReplaceSpaces (ToLower tbl (a ++ " " ++ b)) = ReplaceSpaces (ToLower tbl (a ++ b)) := by
  simp [ReplaceSpaces, ToLower, unicodeToLower_space]


/-! ## The workflow -/

/-- C1. When the configuration is read and the log file opens, `getHost` resolves the
address `h.Address`, `getUser` returns the login `l` and the password `pw`, and the
password `p` is `pw` when `pw` is non-empty and otherwise the string the password prompt
returns, the run issues exactly three OS commands, in the order cache, launch, delete,
built from address, login and password as stated, with one 2-second sleep between
consecutive commands, and the process exits with status 0. The target deleted is the
target cached. -/
theorem three_commands_in_order (env : Env) (xs ys : List Value) (hosts : Hosts) (i : Nat)
    (h : Host) (users : List String) (l pw p : String)
    (hcfg : env.readInConfig = none)
    (hopen : env.openFile (flagString env.logfileFlag default_logfile) = none)
    (hhost : env.hostConfig = .slice xs) (hhosts : hostLoop xs [] = some hosts)
    (hsel : env.selectRun hosts (searcher env.caseTable hosts) = .ok i)
    (hget : hosts[i]? = some h)
    (huser : env.userConfig = .slice ys) (husers : buildLoop env.USERNAME ys [] = some users)
    (hpick : env.selectWithAddRun users = .ok l)
    (hres : resolveLoop env.USERNAME l ys "" = some pw)
    (hp : if len pw = 0 then env.promptRun validate = .ok p else p = pw) :
    commandsOf (run env).trace =
      [.exec ("cmdkey /generic:TERMSRV/" ++ h.Address ++ " /user:" ++ l ++ " /pass:" ++ p),
       .sleep (2 * Second),
       .exec ("start mstsc /f /v:" ++ h.Address),
       .sleep (2 * Second),
       .exec ("cmdkey /delete:TERMSRV/" ++ h.Address)]
    ∧ (run env).exitStatus = 0 := by
  simp only [run, main, action, init, initLogging, initViper, initApp, hcfg, hopen,
    bind_apply, Prog.bind,
    St.initial, setLevel_apply, changeLogLevel_apply, changeLogOut_apply, setOut_apply,
    logEntry_apply, progPure_apply, hhost, huser,
    getHost_ok env xs hosts i h _ hhosts hsel hget,
    getUser_ok env ys users l pw _ husers hpick hres]
  split at hp
  · rename_i h0
    simp [h0, getPassword, Prog.bind, hp, execCommand_ok, Res.trace, Res.state,
      Res.exitStatus, Event.isCommand]
  · rename_i h0
    simp [h0, getPassword, hp, execCommand_ok, Res.trace, Res.state, Res.exitStatus,
      Event.isCommand]

/-- C6. When `getUser` returns the password `pw`, the prompts of the run are the host
prompt, the user prompt and, exactly when `pw` is empty, the password prompt; and when
`pw` is non-empty the credential-cache command carries `pw` unchanged. -/
theorem password_prompt_iff_empty (env : Env) (xs ys : List Value) (hosts : Hosts) (i : Nat)
    (h : Host) (users : List String) (l pw : String)
    (hcfg : env.readInConfig = none)
    (hopen : env.openFile (flagString env.logfileFlag default_logfile) = none)
    (hhost : env.hostConfig = .slice xs) (hhosts : hostLoop xs [] = some hosts)
    (hsel : env.selectRun hosts (searcher env.caseTable hosts) = .ok i)
    (hget : hosts[i]? = some h)
    (huser : env.userConfig = .slice ys) (husers : buildLoop env.USERNAME ys [] = some users)
    (hpick : env.selectWithAddRun users = .ok l)
    (hres : resolveLoop env.USERNAME l ys "" = some pw) :
    promptsOf (run env).trace =
      [.select "Host" hosts, .selectWithAdd "User" users "Other"]
        ++ (if pw = "" then [.prompt "Password"] else [])
    ∧ (pw ≠ "" →
        commandsOf (run env).trace =
          [.exec ("cmdkey /generic:TERMSRV/" ++ h.Address ++ " /user:" ++ l ++ " /pass:" ++ pw),
           .sleep (2 * Second),
           .exec ("start mstsc /f /v:" ++ h.Address),
           .sleep (2 * Second),
           .exec ("cmdkey /delete:TERMSRV/" ++ h.Address)]) := by
  simp only [run, main, action, init, initLogging, initViper, initApp, hcfg, hopen,
    bind_apply, Prog.bind,
    St.initial, setLevel_apply, changeLogLevel_apply, changeLogOut_apply, setOut_apply,
    logEntry_apply, progPure_apply, hhost, huser,
    getHost_ok env xs hosts i h _ hhosts hsel hget,
    getUser_ok env ys users l pw _ husers hpick hres]
  by_cases h0 : pw = ""
  · subst h0
    have h1 : len "" = 0 := (len_eq_zero_iff "").2 rfl
    cases hprompt : env.promptRun validate with
    | error err =>
      simp [h1, getPassword, Prog.bind, hprompt, Res.trace, Res.state, Event.isPrompt]
    | ok typed =>
      simp [h1, getPassword, Prog.bind, hprompt, execCommand_ok, Res.trace, Res.state,
        Event.isPrompt]
  · have h1 : ¬ len pw = 0 := fun hh => h0 ((len_eq_zero_iff pw).1 hh)
    simp [h0, h1, execCommand_ok, Res.trace, Res.state, Event.isPrompt, Event.isCommand]

/-- C7. `execCommand` returns normally whatever the OS reports for the command; and
in a run that reaches the commands, whatever the three invocations report (the
environment's `commandRun` is unconstrained, so all eight combinations of success and
failure are covered), all three commands are issued in the order cache, launch, delete,
the action returns no error, `main` returns and the exit status is 0. -/
theorem command_failures_not_propagated (env : Env) (xs ys : List Value) (hosts : Hosts) (i : Nat)
    (h : Host) (users : List String) (l pw p : String)
    (hcfg : env.readInConfig = none)
    (hopen : env.openFile (flagString env.logfileFlag default_logfile) = none)
    (hhost : env.hostConfig = .slice xs) (hhosts : hostLoop xs [] = some hosts)
    (hsel : env.selectRun hosts (searcher env.caseTable hosts) = .ok i)
    (hget : hosts[i]? = some h)
    (huser : env.userConfig = .slice ys) (husers : buildLoop env.USERNAME ys [] = some users)
    (hpick : env.selectWithAddRun users = .ok l)
    (hres : resolveLoop env.USERNAME l ys "" = some pw)
    (hp : if len pw = 0 then env.promptRun validate = .ok p else p = pw) :
    (∀ (c : String) (s : St), (execCommand env c s).value = some ()
      ∧ commandsOf (execCommand env c s).trace = commandsOf s.trace ++ [.exec c])
    ∧ commandsOf (run env).trace =
      [.exec ("cmdkey /generic:TERMSRV/" ++ h.Address ++ " /user:" ++ l ++ " /pass:" ++ p),
       .sleep (2 * Second),
       .exec ("start mstsc /f /v:" ++ h.Address),
       .sleep (2 * Second),
       .exec ("cmdkey /delete:TERMSRV/" ++ h.Address)]
    ∧ (action env (init env St.initial).state).value = some none
    ∧ (run env).value = some ()
    ∧ (run env).exitStatus = 0 := by
  refine ⟨fun c s => ?_, ?_⟩
  · simp [execCommand_ok, Res.value, Res.trace, Res.state]
  simp only [run, main, action, init, initLogging, initViper, initApp, hcfg, hopen,
    bind_apply, Prog.bind,
    St.initial, setLevel_apply, changeLogLevel_apply, changeLogOut_apply, setOut_apply,
    logEntry_apply, progPure_apply, hhost, huser,
    getHost_ok env xs hosts i h _ hhosts hsel hget,
    getUser_ok env ys users l pw _ husers hpick hres]
  split at hp
  · rename_i h0
    simp [h0, getPassword, Prog.bind, hp, execCommand_ok, Res.trace, Res.state,
      Res.exitStatus, Res.value, Event.isCommand]
  · rename_i h0
    simp [h0, getPassword, hp, execCommand_ok, Res.trace, Res.state, Res.exitStatus,
      Res.value, Event.isCommand]

/-- C8. In a run that got past start-up (configuration read, log file opened):
if the host prompt fails, the process stops there with exit status 1;
if the host is chosen and the user prompt fails, it stops there with exit status 1;
if host and user are chosen, no password is stored and the password prompt fails, it
stops there with exit status 0. In all three cases `main` does not return, the failing
prompt is the last prompt shown and no OS command or sleep was executed. -/
theorem prompt_failure_stops_run (env : Env)
    (hcfg : env.readInConfig = none)
    (hopen : env.openFile (flagString env.logfileFlag default_logfile) = none) :
    (∀ (xs : List Value) (hosts : Hosts) (err : String),
        env.hostConfig = .slice xs → hostLoop xs [] = some hosts →
        env.selectRun hosts (searcher env.caseTable hosts) = .error err →
        (run env).value = none ∧ (run env).exitStatus = 1
          ∧ commandsOf (run env).trace = []
          ∧ promptsOf (run env).trace = [.select "Host" hosts])
    ∧ (∀ (xs ys : List Value) (hosts : Hosts) (i : Nat) (h : Host) (users : List String)
        (err : String),
        env.hostConfig = .slice xs → hostLoop xs [] = some hosts →
        env.selectRun hosts (searcher env.caseTable hosts) = .ok i → hosts[i]? = some h →
        env.userConfig = .slice ys → buildLoop env.USERNAME ys [] = some users →
        env.selectWithAddRun users = .error err →
        (run env).value = none ∧ (run env).exitStatus = 1
          ∧ commandsOf (run env).trace = []
          ∧ promptsOf (run env).trace =
              [.select "Host" hosts, .selectWithAdd "User" users "Other"])
    ∧ (∀ (xs ys : List Value) (hosts : Hosts) (i : Nat) (h : Host) (users : List String)
        (l err : String),
        env.hostConfig = .slice xs → hostLoop xs [] = some hosts →
        env.selectRun hosts (searcher env.caseTable hosts) = .ok i → hosts[i]? = some h →
        env.userConfig = .slice ys → buildLoop env.USERNAME ys [] = some users →
        env.selectWithAddRun users = .ok l → resolveLoop env.USERNAME l ys "" = some "" →
        env.promptRun validate = .error err →
        (run env).value = none ∧ (run env).exitStatus = 0
          ∧ commandsOf (run env).trace = []
          ∧ promptsOf (run env).trace =
              [.select "Host" hosts, .selectWithAdd "User" users "Other", .prompt "Password"]) := by
  refine ⟨?_, ?_, ?_⟩
  · intro xs hosts err hhost hhosts hsel
    simp [run, main, action, init, initLogging, initViper, initApp, hcfg, hopen, Prog.bind,
      St.initial,
      hhost, getHost, hhosts, hsel, Res.value, Res.exitStatus, Res.trace, Res.state,
      Event.isPrompt, Event.isCommand]
  · intro xs ys hosts i h users err hhost hhosts hsel hget huser husers hpick
    simp [run, main, action, init, initLogging, initViper, initApp, hcfg, hopen, Prog.bind,
      St.initial,
      hhost, huser, getHost_ok env xs hosts i h _ hhosts hsel hget, getUser, husers, hpick,
      Res.value, Res.exitStatus, Res.trace, Res.state, Event.isPrompt, Event.isCommand]
  · intro xs ys hosts i h users l err hhost hhosts hsel hget huser husers hpick hres hprompt
    have h1 : len "" = 0 := (len_eq_zero_iff "").2 rfl
    simp [run, main, action, init, initLogging, initViper, initApp, hcfg, hopen, Prog.bind,
      St.initial,
      hhost, huser, getHost_ok env xs hosts i h _ hhosts hsel hget,
      getUser_ok env ys users l "" _ husers hpick hres, h1, getPassword, hprompt,
      Res.value, Res.exitStatus, Res.trace, Res.state, Event.isPrompt, Event.isCommand]

/-- C1, witness: scenario A (address 10.0.0.5, login CORP\alice, stored password s3cret!). -/
theorem three_commands_in_order_witness :
    commandsOf (run envA).trace =
      [.exec "cmdkey /generic:TERMSRV/10.0.0.5 /user:CORP\\alice /pass:s3cret!",
       .sleep 2000000000,
       .exec "start mstsc /f /v:10.0.0.5",
       .sleep 2000000000,
       .exec "cmdkey /delete:TERMSRV/10.0.0.5"]
    ∧ (run envA).exitStatus = 0 :=
  three_commands_in_order envA (hostsA.map Host.toValue)
    [(UserEntry.mk "CORP" "alice" "s3cret!").toValue] hostsA 0 (Host.mk "srv1" "rdp" "10.0.0.5")
    ["CORP\\alice"] "CORP\\alice" "s3cret!" "s3cret!"
    rfl rfl rfl (by decide) rfl rfl rfl (by decide) rfl (by decide)
    (by rw [if_neg (by decide)])

/-- Scenario B evaluated: the typed password `abcdef` appears in the first command. -/
theorem scenario_B_commands :
    commandsOf (run envB).trace =
      [.exec "cmdkey /generic:TERMSRV/10.0.0.5 /user:CORP\\bob /pass:abcdef",
       .sleep 2000000000,
       .exec "start mstsc /f /v:10.0.0.5",
       .sleep 2000000000,
       .exec "cmdkey /delete:TERMSRV/10.0.0.5"]
    ∧ (run envB).exitStatus = 0 := by
  decide

/-- C6, witness: scenario B, where no password is stored and the prompt is shown. -/
theorem password_prompt_iff_empty_witness :
    promptsOf (run envB).trace =
      [.select "Host" hostsA, .selectWithAdd "User" ["CORP\\bob"] "Other"]
        ++ (if ("" : String) = "" then [.prompt "Password"] else [])
    ∧ (("" : String) ≠ "" →
        commandsOf (run envB).trace =
          [.exec ("cmdkey /generic:TERMSRV/" ++ "10.0.0.5" ++ " /user:" ++ "CORP\\bob"
            ++ " /pass:" ++ ""),
           .sleep (2 * Second),
           .exec ("start mstsc /f /v:" ++ "10.0.0.5"),
           .sleep (2 * Second),
           .exec ("cmdkey /delete:TERMSRV/" ++ "10.0.0.5")]) :=
  password_prompt_iff_empty envB (hostsA.map Host.toValue)
    [(UserEntry.mk "CORP" "USERNAME" "NA").toValue] hostsA 0 (Host.mk "srv1" "rdp" "10.0.0.5")
    ["CORP\\bob"] "CORP\\bob" ""
    rfl rfl rfl (by decide) rfl rfl rfl (by decide) rfl (by decide)

/-- Scenario A evaluated: a stored password means no password prompt. -/
theorem scenario_A_prompts :
    promptsOf (run envA).trace =
      [.select "Host" hostsA, .selectWithAdd "User" ["CORP\\alice"] "Other"] := by
  decide

/-- C7, witness: scenario A with all three OS commands failing. -/
theorem command_failures_not_propagated_witness :
    (∀ (c : String) (s : St), (execCommand envFail c s).value = some ()
      ∧ commandsOf (execCommand envFail c s).trace = commandsOf s.trace ++ [.exec c])
    ∧ commandsOf (run envFail).trace =
      [.exec "cmdkey /generic:TERMSRV/10.0.0.5 /user:CORP\\alice /pass:s3cret!",
       .sleep 2000000000,
       .exec "start mstsc /f /v:10.0.0.5",
       .sleep 2000000000,
       .exec "cmdkey /delete:TERMSRV/10.0.0.5"]
    ∧ (action envFail (init envFail St.initial).state).value = some none
    ∧ (run envFail).value = some ()
    ∧ (run envFail).exitStatus = 0 :=
  command_failures_not_propagated envFail (hostsA.map Host.toValue)
    [(UserEntry.mk "CORP" "alice" "s3cret!").toValue] hostsA 0 (Host.mk "srv1" "rdp" "10.0.0.5")
    ["CORP\\alice"] "CORP\\alice" "s3cret!" "s3cret!"
    rfl rfl rfl (by decide) rfl rfl rfl (by decide) rfl (by decide)
    (by rw [if_neg (by decide)])

/-- Scenario A with all commands failing, evaluated at warn level: each failure
leaves one warning in the log and the next command is still run. -/
theorem failing_commands_trace :
    (run { envFail with levelFlag := some "warn" }).trace =
      [.select "Host" hostsA, .selectWithAdd "User" ["CORP\\alice"] "Other",
       .exec "cmdkey /generic:TERMSRV/10.0.0.5 /user:CORP\\alice /pass:s3cret!",
       .log (.file "./output.log") .warnLevel "Command Exec Error" [("err", "exit status 1")],
       .sleep 2000000000,
       .exec "start mstsc /f /v:10.0.0.5",
       .log (.file "./output.log") .warnLevel "Command Exec Error" [("err", "exit status 1")],
       .sleep 2000000000,
       .exec "cmdkey /delete:TERMSRV/10.0.0.5",
       .log (.file "./output.log") .warnLevel "Command Exec Error" [("err", "exit status 1")]] := by
  decide

/-- C8, witness: scenarios C (host prompt cancelled), user prompt cancelled, and
D (password prompt cancelled). -/
theorem prompt_failure_stops_run_witness :
    ((run envHostCancel).value = none ∧ (run envHostCancel).exitStatus = 1
      ∧ commandsOf (run envHostCancel).trace = []
      ∧ promptsOf (run envHostCancel).trace = [.select "Host" hostsA])
    ∧ ((run envUserCancel).value = none ∧ (run envUserCancel).exitStatus = 1
      ∧ commandsOf (run envUserCancel).trace = []
      ∧ promptsOf (run envUserCancel).trace =
          [.select "Host" hostsA, .selectWithAdd "User" ["CORP\\alice"] "Other"])
    ∧ ((run envPasswordCancel).value = none ∧ (run envPasswordCancel).exitStatus = 0
      ∧ commandsOf (run envPasswordCancel).trace = []
      ∧ promptsOf (run envPasswordCancel).trace =
          [.select "Host" hostsA, .selectWithAdd "User" ["CORP\\bob"] "Other",
           .prompt "Password"]) :=
  ⟨(prompt_failure_stops_run envHostCancel rfl rfl).1 (hostsA.map Host.toValue) hostsA "^C"
      rfl (by decide) rfl,
   (prompt_failure_stops_run envUserCancel rfl rfl).2.1 (hostsA.map Host.toValue)
      [(UserEntry.mk "CORP" "alice" "s3cret!").toValue] hostsA 0 (Host.mk "srv1" "rdp" "10.0.0.5")
      ["CORP\\alice"] "^C" rfl (by decide) rfl rfl rfl (by decide) rfl,
   (prompt_failure_stops_run envPasswordCancel rfl rfl).2.2 (hostsA.map Host.toValue)
      [(UserEntry.mk "CORP" "USERNAME" "NA").toValue] hostsA 0 (Host.mk "srv1" "rdp" "10.0.0.5")
      ["CORP\\bob"] "CORP\\bob" "^C" rfl (by decide) rfl rfl rfl (by decide) rfl (by decide) rfl⟩

/-! ## The user selector -/

/-- On a well-formed user list, `getUser` with the prompt answering `chosen` returns
`chosen` and the password the resolution loop folds out of the list. -/
theorem getUser_toValue (env : Env) (us : List UserEntry) (chosen : String) (s : St)
    (hpick : env.selectWithAddRun (us.map (loginOf env.USERNAME)) = .ok chosen) :
    (getUser env (.slice (us.map UserEntry.toValue)) s).value =
      some (chosen, us.foldl
        (fun acc e => if loginOf env.USERNAME e = chosen then storedPassword e else acc) "") := by
  rw [getUser_ok env _ (us.map (loginOf env.USERNAME)) chosen _ s
    (by simpa using buildLoop_toValue env.USERNAME us []) hpick
    (resolveLoop_toValue env.USERNAME chosen us "")]
  rfl

/-- C2, counterexample: with two entries of Login `CORP\alice`, passwords `first` and
`second`, `getUser` returns `second`, where the first matching entry supplies `first`. -/
theorem first_match_counterexample :
    (getUser envA (.slice (usersDup.map UserEntry.toValue)) St.initial).value
      = some ("CORP\\alice", "second")
    ∧ firstMatchPassword envA.USERNAME usersDup "CORP\\alice" = "first"
    ∧ (getUser envA (.slice (usersDup.map UserEntry.toValue)) St.initial).value
      ≠ some ("CORP\\alice", firstMatchPassword envA.USERNAME usersDup "CORP\\alice") := by
  decide

/-- C2, amended. For every user list, operator account name and chosen login, `getUser`
returns the chosen login together with a password determined by the LAST entry whose
Login equals the chosen string: that entry's Password, or the empty string when that
Password is `NA`; and when no entry's Login equals the chosen string the password is
the empty string. -/
theorem getUser_password_last_match (env : Env) (us : List UserEntry) (chosen : String)
    (s : St) (hpick : env.selectWithAddRun (us.map (loginOf env.USERNAME)) = .ok chosen) :
    ∃ pw, (getUser env (.slice (us.map UserEntry.toValue)) s).value = some (chosen, pw)
      ∧ (∀ (pre post : List UserEntry) (e : UserEntry), us = pre ++ e :: post →
          loginOf env.USERNAME e = chosen →
          (∀ x ∈ post, loginOf env.USERNAME x ≠ chosen) →
          pw = if e.Password = "NA" then "" else e.Password)
      ∧ ((∀ x ∈ us, loginOf env.USERNAME x ≠ chosen) → pw = "") := by
  refine ⟨_, getUser_toValue env us chosen s hpick, ?_, ?_⟩
  · intro pre post e hus he hpost
    subst hus
    exact foldl_last_match env.USERNAME chosen pre post e "" he hpost
  · intro hnone
    exact foldl_no_match env.USERNAME chosen us "" hnone

/-- C2, witness: the two-entry list with equal Logins. -/
theorem getUser_password_last_match_witness :
    ∃ pw, (getUser envA (.slice (usersDup.map UserEntry.toValue)) St.initial).value
        = some ("CORP\\alice", pw)
      ∧ (∀ (pre post : List UserEntry) (e : UserEntry), usersDup = pre ++ e :: post →
          loginOf envA.USERNAME e = "CORP\\alice" →
          (∀ x ∈ post, loginOf envA.USERNAME x ≠ "CORP\\alice") →
          pw = if e.Password = "NA" then "" else e.Password)
      ∧ ((∀ x ∈ usersDup, loginOf envA.USERNAME x ≠ "CORP\\alice") → pw = "") :=
  getUser_password_last_match envA usersDup "CORP\\alice" St.initial rfl

/-- C3, counterexample: the first entry has Password `NA` and Login `CORP\alice`, the
chosen login is `CORP\alice`, and `getUser` returns the password `pw123456` of the
later entry with the same Login. -/
theorem sentinel_overridden_counterexample :
    UserEntry.mk "CORP" "alice" "NA" ∈ usersNA
    ∧ loginOf envA.USERNAME (UserEntry.mk "CORP" "alice" "NA") = "CORP\\alice"
    ∧ (getUser envA (.slice (usersNA.map UserEntry.toValue)) St.initial).value
      = some ("CORP\\alice", "pw123456") := by
  decide

/-- C3, amended. For every user list, operator account name and entry `e` of the list
whose Password is `NA` and after which no entry of the list has the same Login: when
the chosen login equals the Login of `e`, the password returned by `getUser` is the
empty string. -/
theorem sentinel_password_empty (env : Env) (pre post : List UserEntry) (e : UserEntry)
    (s : St) (hna : e.Password = "NA")
    (hpost : ∀ x ∈ post, loginOf env.USERNAME x ≠ loginOf env.USERNAME e)
    (hpick : env.selectWithAddRun ((pre ++ e :: post).map (loginOf env.USERNAME))
      = .ok (loginOf env.USERNAME e)) :
    (getUser env (.slice ((pre ++ e :: post).map UserEntry.toValue)) s).value
      = some (loginOf env.USERNAME e, "") := by
  rw [getUser_toValue env _ _ s hpick,
    foldl_last_match env.USERNAME _ pre post e "" rfl hpost]
  simp [storedPassword, hna]

/-- C3, witness: scenario B, whose only entry has Password `NA`. -/
theorem sentinel_password_empty_witness :
    (getUser envB (.slice
        (([] ++ UserEntry.mk "CORP" "USERNAME" "NA" :: []).map UserEntry.toValue))
      St.initial).value
      = some (loginOf envB.USERNAME (UserEntry.mk "CORP" "USERNAME" "NA"), "") :=
  sentinel_password_empty envB [] [] (UserEntry.mk "CORP" "USERNAME" "NA") St.initial rfl
    (by simp) rfl

/-- C4. For every user list and operator account name, the list offered by the user
prompt of `getUser` has at position `i` the string `Domain \ Username` of the `i`-th
entry, with the account name in place of a Username that is exactly `USERNAME`; the
build loop and the resolution loop compute that same string for the `i`-th entry. -/
theorem logins_agree (env : Env) (us : List UserEntry) (s : St) (i : Nat)
    (hi : i < us.length) :
    ∃ users, promptsOf (getUser env (.slice (us.map UserEntry.toValue)) s).trace
        = promptsOf s.trace ++ [.selectWithAdd "User" users "Other"]
      ∧ users.length = us.length
      ∧ users[i]? = some (us[i].Domain ++ "\\" ++
          (if us[i].Username = "USERNAME" then env.USERNAME else us[i].Username))
      ∧ buildLogin env.USERNAME us[i].toValue = some (us[i].Domain ++ "\\" ++
          (if us[i].Username = "USERNAME" then env.USERNAME else us[i].Username))
      ∧ resolveLogin env.USERNAME us[i].toValue = some (us[i].Domain ++ "\\" ++
          (if us[i].Username = "USERNAME" then env.USERNAME else us[i].Username)) := by
  refine ⟨us.map (loginOf env.USERNAME), ?_, by simp, ?_,
    buildLogin_toValue env.USERNAME us[i], resolveLogin_toValue env.USERNAME us[i]⟩
  · have hb : buildLoop env.USERNAME (us.map UserEntry.toValue) []
        = some (us.map (loginOf env.USERNAME)) := by
      simpa using buildLoop_toValue env.USERNAME us []
    cases hsel : env.selectWithAddRun (us.map (loginOf env.USERNAME)) with
    | error err =>
      simp [getUser, Prog.bind, hb, hsel, Res.trace, Res.state, Event.isPrompt]
    | ok chosen =>
      simp [getUser, Prog.bind, hb, hsel, resolveLoop_toValue, Res.trace, Res.state,
        Event.isPrompt]
  · simp [hi, loginOf]

/-- C4, witness: Domain `CORP`, Username `USERNAME`, account name `bob` give `CORP\bob`
in the offered list, in the build loop and in the resolution loop. -/
theorem logins_agree_witness :
    ∃ users, promptsOf (getUser envB (.slice
          ([UserEntry.mk "CORP" "USERNAME" "NA"].map UserEntry.toValue)) St.initial).trace
        = promptsOf St.initial.trace ++ [.selectWithAdd "User" users "Other"]
      ∧ users.length = 1
      ∧ users[0]? = some "CORP\\bob"
      ∧ buildLogin "bob" (UserEntry.mk "CORP" "USERNAME" "NA").toValue = some "CORP\\bob"
      ∧ resolveLogin "bob" (UserEntry.mk "CORP" "USERNAME" "NA").toValue = some "CORP\\bob" :=
  logins_agree envB [UserEntry.mk "CORP" "USERNAME" "NA"] St.initial 0 (by decide)

/-- The two login computations agree on every value, well-formed or not. -/
theorem buildLogin_eq_resolveLogin (n : String) (v : Value) :
    buildLogin n v = resolveLogin n v := by
  unfold buildLogin resolveLogin
  rfl

/-! ## The password validation hook -/

/-- The validation hook accepts exactly the strings of at least 6 bytes. -/
theorem validate_accepts_iff_six_bytes (s : String) : validate s = none ↔ 6 ≤ len s :=
  validate_none_iff s

/-- Every string of 6 or more characters is accepted. -/
theorem validate_accepts_six_chars (s : String) (h : 6 ≤ s.length) : validate s = none :=
  (validate_none_iff s).2 (Nat.le_trans h (length_le_len s))

/-- C5, the code at the failing input: the string of three letters `é` has 3 characters
and 6 bytes and the validation hook accepts it, although it is shorter than 6
characters; `abcdef` is accepted and `abcde` is rejected. -/
theorem validate_counts_bytes :
    ("ééé" : String).length = 3
    ∧ len "ééé" = 6
    ∧ validate "ééé" = none
    ∧ validate "abcdef" = none
    ∧ validate "abcde" = some "Password must have more than 6 characters" := by
  decide

/-! ## The log destination -/

/-- Once the logger points at `w` and everything logged so far went to `w`, a further
entry keeps it so. -/
theorem logsTo_logged (w : Writer) (s : St) (l : Level) (m : String)
    (f : List (String × String)) (h : LogsTo w s) : LogsTo w (s.logged l m f) := by
  obtain ⟨hout, hall⟩ := h
  refine ⟨by simp [hout], ?_⟩
  unfold St.logged
  split
  · intro e he
    simp only [push_trace, List.mem_append, List.mem_singleton] at he
    rcases he with he | he
    · exact hall e he
    · subst he; simp [Event.dest, hout]
  · exact hall

/-- An effect that is not a log entry does not disturb `LogsTo`. -/
theorem logsTo_push (w : Writer) (s : St) (e : Event) (he : e.dest = none)
    (h : LogsTo w s) : LogsTo w (s.push e) := by
  obtain ⟨hout, hall⟩ := h
  refine ⟨by simp [hout], ?_⟩
  intro x hx
  simp only [push_trace, List.mem_append, List.mem_singleton] at hx
  rcases hx with hx | hx
  · exact hall x hx
  · subst hx; simp [he]

/-- Running an OS command does not disturb `LogsTo`. -/
theorem logsTo_execState (w : Writer) (env : Env) (c : String) (s : St)
    (h : LogsTo w s) : LogsTo w (execState env c s) := by
  rw [execState, execCommand_apply]
  have h1 := logsTo_push w _ (Event.exec c) rfl
    (logsTo_logged w s .debugLevel "Func execCommand" [("command", c)] h)
  have h2 : LogsTo w { ((s.logged .debugLevel "Func execCommand" [("command", c)]).push
      (Event.exec c)) with cmds := s.cmds + 1 } := h1
  cases env.commandRun s.cmds c with
  | none => exact h2
  | some e => exact logsTo_logged w _ .warnLevel "Command Exec Error" [("err", e)] h2

/-- In every run that reaches the commands, whatever `--out` is, every log entry of
the run is written to the file named by `--logfile`. -/
theorem all_entries_go_to_logfile (env : Env) (xs ys : List Value) (hosts : Hosts) (i : Nat)
    (h : Host) (users : List String) (l pw p : String)
    (hcfg : env.readInConfig = none)
    (hopen : env.openFile (flagString env.logfileFlag default_logfile) = none)
    (hhost : env.hostConfig = .slice xs) (hhosts : hostLoop xs [] = some hosts)
    (hsel : env.selectRun hosts (searcher env.caseTable hosts) = .ok i)
    (hget : hosts[i]? = some h)
    (huser : env.userConfig = .slice ys) (husers : buildLoop env.USERNAME ys [] = some users)
    (hpick : env.selectWithAddRun users = .ok l)
    (hres : resolveLoop env.USERNAME l ys "" = some pw)
    (hp : if len pw = 0 then env.promptRun validate = .ok p else p = pw) :
    LogsTo (.file (flagString env.logfileFlag default_logfile)) (run env).state := by
  have h0 : LogsTo (.file (flagString env.logfileFlag default_logfile))
      { out := .file (flagString env.logfileFlag default_logfile),
        level := levelAfter (flagString env.levelFlag "info")
          { out := .stderr, level := .infoLevel, cmds := 0, trace := [] },
        cmds := 0, trace := [] } := ⟨rfl, by intro e he; cases he⟩
  simp only [run, main, action, init, initLogging, initViper, initApp, hcfg, hopen, bind_apply,
    Prog.bind, St.initial, setLevel_apply, changeLogLevel_apply, changeLogOut_apply,
    setOut_apply, logEntry_apply, progPure_apply, hhost, huser,
    getHost_ok env xs hosts i h _ hhosts hsel hget,
    getUser_ok env ys users l pw _ husers hpick hres]
  split at hp
  · rename_i hz
    simp only [hz, if_true, getPassword, bind_apply, Prog.bind, emit_apply, hp, pure_apply,
      logEntry_apply, progPure_apply, execCommand_ok, timeSleep_apply, Res.state]
    repeat (first
      | exact h0
      | apply logsTo_logged
      | apply logsTo_execState
      | refine logsTo_push _ _ _ rfl ?_)
  · rename_i hz
    simp only [hz, if_false, bind_apply, Prog.bind, pure_apply,
      logEntry_apply, progPure_apply, execCommand_ok, timeSleep_apply, Res.state]
    repeat (first
      | exact h0
      | apply logsTo_logged
      | apply logsTo_execState
      | refine logsTo_push _ _ _ rfl ?_)

/-- C9, the code at the failing inputs: `changeLogOut` does point the logger at
standard output (standard error), but in a run with `--out stdout` (`--out stderr`)
whose log file opens, every log entry of the run is written to the file
`./output.log`. -/
theorem out_flag_overridden :
    (changeLogOut "stdout" St.initial).state.out = Writer.stdout
    ∧ (changeLogOut "stderr" St.initial).state.out = Writer.stderr
    ∧ logsOf (run envStdout).trace =
      [.log (.file "./output.log") .infoLevel "Start mstsc app" [],
       .log (.file "./output.log") .infoLevel "End mstsc app" []]
    ∧ logsOf (run envStderr).trace =
      [.log (.file "./output.log") .infoLevel "Start mstsc app" [],
       .log (.file "./output.log") .infoLevel "End mstsc app" []] := by
  decide

/-! ## The host searcher -/

/-- C10, counterexample: for the host name `srv1` the input `s<TAB>r` is rejected by
the searcher, while with all whitespace removed it is `sr`, which occurs in `srv1`;
and the input `sr` without the tab is accepted. -/
theorem searcher_tab_counterexample :
    searcher (fun c => c) hostsA "s\tr" 0 = some false
    ∧ specSearcher (fun c => c) hostsA "s\tr" 0 = some true
    ∧ searcher (fun c => c) hostsA "sr" 0 = some true := by
  decide

/-- C10, amended. For every host list, valid index and input, the searcher returns
true exactly when the input, lower-cased and with every space character (U+0020)
removed, occurs in the host's Name, lower-cased and with every space character
removed; so the result is unchanged by inserting a space character into the input or
the name, and by any change of the input or the name that leaves its lower-casing the
same, in particular by changing the case of ASCII letters. -/
theorem searcher_strips_spaces_only (tbl : Char → Char) (hosts : Hosts) (input : String)
    (index : Nat) (host : Host) (hget : hosts[index]? = some host) :
    (∃ r, searcher tbl hosts input index = some r ∧
      (r = true ↔
        ((ToLower tbl input).data.filter (fun c => c != ' ')) <:+:
          ((ToLower tbl host.Name).data.filter (fun c => c != ' '))))
    ∧ (∀ a b : String,
        searcher tbl hosts (a ++ " " ++ b) index = searcher tbl hosts (a ++ b) index)
    ∧ (∀ input2 : String, ToLower tbl input2 = ToLower tbl input →
        searcher tbl hosts input2 index = searcher tbl hosts input index)
    ∧ (∀ (hosts2 : Hosts) (a b ty ad : String), host = Host.mk (a ++ b) ty ad →
        hosts2[index]? = some (Host.mk (a ++ " " ++ b) ty ad) →
        searcher tbl hosts2 input index = searcher tbl hosts input index)
    ∧ (∀ (hosts2 : Hosts) (host2 : Host), hosts2[index]? = some host2 →
        ToLower tbl host2.Name = ToLower tbl host.Name →
        searcher tbl hosts2 input index = searcher tbl hosts input index)
    ∧ (∀ x y : String, SameUpToAsciiCase x y → ToLower tbl x = ToLower tbl y) := by
  refine ⟨⟨Contains (ReplaceSpaces (ToLower tbl host.Name)) (ReplaceSpaces (ToLower tbl input)),
    by simp only [searcher, hget], ?_⟩, ?_, ?_, ?_, ?_, ?_⟩
  · rw [Contains_iff]; rfl
  · intro a b
    simp only [searcher, hget, normalize_space]
  · intro input2 h
    simp only [searcher, hget, h]
  · intro hosts2 a b ty ad hh h2
    subst hh
    simp only [searcher, hget, h2, normalize_space]
  · intro hosts2 host2 h2 h
    simp only [searcher, hget, h2, h]
  · exact ToLower_congr tbl

/-- C10, witness: the host list of the scenarios, input `S R`. -/
theorem searcher_strips_spaces_only_witness :
    (∃ r, searcher (fun c => c) hostsA "S R" 0 = some r ∧
      (r = true ↔
        ((ToLower (fun c => c) "S R").data.filter (fun c => c != ' ')) <:+:
          ((ToLower (fun c => c) (Host.mk "srv1" "rdp" "10.0.0.5").Name).data.filter
            (fun c => c != ' '))))
    ∧ (∀ a b : String, searcher (fun c => c) hostsA (a ++ " " ++ b) 0
        = searcher (fun c => c) hostsA (a ++ b) 0)
    ∧ (∀ input2 : String, ToLower (fun c => c) input2 = ToLower (fun c => c) "S R" →
        searcher (fun c => c) hostsA input2 0 = searcher (fun c => c) hostsA "S R" 0)
    ∧ (∀ (hosts2 : Hosts) (a b ty ad : String),
        Host.mk "srv1" "rdp" "10.0.0.5" = Host.mk (a ++ b) ty ad →
        hosts2[0]? = some (Host.mk (a ++ " " ++ b) ty ad) →
        searcher (fun c => c) hosts2 "S R" 0 = searcher (fun c => c) hostsA "S R" 0)
    ∧ (∀ (hosts2 : Hosts) (host2 : Host), hosts2[0]? = some host2 →
        ToLower (fun c => c) host2.Name
          = ToLower (fun c => c) (Host.mk "srv1" "rdp" "10.0.0.5").Name →
        searcher (fun c => c) hosts2 "S R" 0 = searcher (fun c => c) hostsA "S R" 0)
    ∧ (∀ x y : String, SameUpToAsciiCase x y →
        ToLower (fun c => c) x = ToLower (fun c => c) y) :=
  searcher_strips_spaces_only (fun c => c) hostsA "S R" 0 (Host.mk "srv1" "rdp" "10.0.0.5") rfl

/-- The searcher evaluated: case and spaces in the input do not matter. -/
theorem searcher_examples :
    searcher (fun c => c) hostsA "S R" 0 = some true
    ∧ searcher (fun c => c) hostsA "SRV 1" 0 = some true
    ∧ searcher (fun c => c) hostsA "srv2" 0 = some false
    ∧ searcher (fun c => c) hostsA "srv1" 1 = none := by
  decide

end Mjtsc
